import Mathlib

/-!
# Verification of the Casino wallet-ledger service

Shallow embedding of `src/casino/service.ts` (`CasinoService`): the data
model (wallets, sessions, ledger of transactions) and the three
money-moving operations `processDebit`, `processCredit`,
`processRollback`, together with proofs of the spec's claims about them.

Database rows become Lean structures; the mutable database becomes an
explicit `State` threaded through each operation; a thrown `CasinoError`
becomes the `.error` branch of `Except` (a throw inside a database
transaction rolls everything back, so an error never changes the state).
JavaScript `x || y` on possibly-absent numbers/strings (falsy on `0`,
`""` and `undefined`) is modelled by `jsOrI` / `jsOrS`.
-/

namespace Casino

/-- Transaction kinds stored in `casino_transactions.transaction_type`. -/
inductive TransactionType
  | debit
  | credit
  | rollback
deriving Repr, DecidableEq

/-- The JSON `response_cache` blob: a record of the optional fields the
service ever writes into it. -/
structure ResponseCache where
  success : Option Bool := none
  transactionId : Option String := none
  originalTransactionId : Option String := none
  balance : Option Int := none
  currency : Option String := none
  tombstone : Option Bool := none
  alreadyRolledBack : Option Bool := none
  reason : Option String := none
deriving Repr, DecidableEq

/-- A row of `casino_transactions`.  The internal uuid `id` is modelled
by a `Nat` drawn from the state's counter. -/
structure CasinoTransaction where
  id : Nat
  wallet_id : String
  session_id : Option String
  transaction_type : TransactionType
  amount : Int
  external_transaction_id : String
  related_external_transaction_id : Option String
  balance_after : Int
  response_cache : ResponseCache
  is_rollback : Bool
deriving Repr, DecidableEq

/-- A row of `casino_wallets` (the fields the ledger engine reads). -/
structure CasinoWallet where
  id : String
  user_id : String
  currency_code : String
  playable_balance : Int
  redeemable_balance : Int
deriving Repr, DecidableEq

/-- A row of `casino_game_sessions` (the fields the ledger engine reads). -/
structure CasinoGameSession where
  id : String
  token : String
  user_id : String
  wallet_id : String
  is_active : Bool
deriving Repr, DecidableEq

/-- A thrown `CasinoError` (message, code, HTTP status). -/
structure CasinoErr where
  message : String
  code : String
  status : Nat
deriving Repr, DecidableEq

/-- The database state the ledger engine touches: wallet rows, session
rows, and the ledger in insertion order.  `nextId` feeds fresh internal
transaction ids (standing in for `uuidv4()`). -/
structure State where
  wallets : List CasinoWallet
  sessions : List CasinoGameSession
  ledger : List CasinoTransaction
  nextId : Nat
deriving Repr, DecidableEq

instance {ε α : Type} [DecidableEq ε] [DecidableEq α] :
    DecidableEq (Except ε α) := fun a b =>
  match a, b with
  | .ok x, .ok y =>
    if h : x = y then .isTrue (by rw [h]) else
      .isFalse (by intro hc; injection hc; contradiction)
  | .error x, .error y =>
    if h : x = y then .isTrue (by rw [h]) else
      .isFalse (by intro hc; injection hc; contradiction)
  | .ok x, .error y => .isFalse (by intro hc; injection hc)
  | .error x, .ok y => .isFalse (by intro hc; injection hc)

/-- JavaScript `x || d` on a number that may be `undefined`: falls back
to `d` when `x` is absent or `0` (both falsy). -/
def jsOrI (x : Option Int) (d : Int) : Int :=
  match x with
  | some v => if v = 0 then d else v
  | none => d

/-- JavaScript `x || d` on a string that may be `undefined`: falls back
to `d` when `x` is absent or empty (both falsy). -/
def jsOrS (x : Option String) (d : String) : String :=
  match x with
  | some v => if v = "" then d else v
  | none => d

/-- `SELECT * FROM casino_wallets WHERE id = $1` (`getWalletById`). -/
def getWalletById (st : State) (walletId : String) : Option CasinoWallet :=
  st.wallets.find? (fun w => w.id == walletId)

/-- `SELECT * FROM casino_game_sessions WHERE token = $1 AND is_active = true`
(`getSessionByToken`). -/
def getSessionByToken (st : State) (token : String) : Option CasinoGameSession :=
  st.sessions.find? (fun s => s.token == token && s.is_active)

/-- `SELECT * FROM casino_transactions WHERE external_transaction_id = $1`
(`getTransactionByExternalId`). -/
def getTransactionByExternalId (st : State) (externalId : String) :
    Option CasinoTransaction :=
  st.ledger.find? (fun t => t.external_transaction_id == externalId)

/-- Effect of `UPDATE casino_wallets SET playable_balance = $1 WHERE id = $2`
on one wallet row. -/
def setBalance (walletId : String) (newBalance : Int) (w : CasinoWallet) :
    CasinoWallet :=
  if w.id == walletId then { w with playable_balance := newBalance } else w

/-- `UPDATE casino_wallets SET playable_balance = $1 WHERE id = $2`. -/
def updateWalletBalance (ws : List CasinoWallet) (walletId : String)
    (newBalance : Int) : List CasinoWallet :=
  ws.map (setBalance walletId newBalance)

/-- Effect of `UPDATE casino_transactions SET is_rollback = true WHERE id = $1`
on one ledger row. -/
def markOne (txnId : Nat) (t : CasinoTransaction) : CasinoTransaction :=
  if t.id == txnId then { t with is_rollback := true } else t

/-- `UPDATE casino_transactions SET is_rollback = true WHERE id = $1`. -/
def markRolledBack (ledger : List CasinoTransaction) (txnId : Nat) :
    List CasinoTransaction :=
  ledger.map (markOne txnId)

/-- Result shape of `processDebit` / `processCredit`. -/
structure MoveResult where
  transaction : CasinoTransaction
  balance : Int
  currency : String
  isDuplicate : Bool
deriving Repr, DecidableEq

/-- Result shape of `processRollback`. -/
structure RollbackResult where
  transaction : Option CasinoTransaction
  balance : Int
  currency : String
  rolledBack : Bool
  message : String
deriving Repr, DecidableEq

/-- `CasinoService.processDebit`: idempotency pre-check, session and
amount validation, then atomically check funds, decrement the balance and
append the debit ledger row. -/
def processDebit (st : State) (sessionToken transactionId roundId : String)
    (amount : Int) : Except CasinoErr (MoveResult × State) :=
  -- Check for duplicate transaction (idempotency)
  match getTransactionByExternalId st transactionId with
  | some existing =>
    let wallet := getWalletById st existing.wallet_id
    .ok ({ transaction := existing,
           balance := jsOrI (wallet.map (fun w => w.playable_balance)) existing.balance_after,
           currency := jsOrS (wallet.map (fun w => w.currency_code)) "USD",
           isDuplicate := true }, st)
  | none =>
    -- Validate session
    match getSessionByToken st sessionToken with
    | none => .error ⟨"Invalid or expired session", "INVALID_SESSION", 401⟩
    | some session =>
      -- Validate amount
      if amount ≤ 0 then
        .error ⟨"Amount must be positive", "INVALID_AMOUNT", 400⟩
      else
        -- Lock wallet row for update
        match getWalletById st session.wallet_id with
        | none => .error ⟨"Wallet not found", "WALLET_ERROR", 500⟩
        | some wallet =>
          -- Check sufficient funds
          if wallet.playable_balance < amount then
            .error ⟨"Insufficient funds", "INSUFFICIENT_FUNDS", 400⟩
          else
            let newBalance := wallet.playable_balance - amount
            let responseCache : ResponseCache :=
              { success := some true, transactionId := some transactionId,
                balance := some newBalance, currency := some wallet.currency_code }
            let txn : CasinoTransaction :=
              { id := st.nextId, wallet_id := wallet.id,
                session_id := some session.id,
                transaction_type := .debit, amount := amount,
                external_transaction_id := transactionId,
                related_external_transaction_id := none,
                balance_after := newBalance,
                response_cache := responseCache, is_rollback := false }
            .ok ({ transaction := txn, balance := newBalance,
                   currency := wallet.currency_code, isDuplicate := false },
                 { st with
                     wallets := updateWalletBalance st.wallets wallet.id newBalance,
                     ledger := st.ledger ++ [txn],
                     nextId := st.nextId + 1 })

/-- `CasinoService.processCredit`: idempotency pre-check, session and
amount validation, then atomically increment the balance and append the
credit ledger row. -/
def processCredit (st : State) (sessionToken transactionId roundId : String)
    (amount : Int) (relatedTransactionId : Option String) :
    Except CasinoErr (MoveResult × State) :=
  -- Check for duplicate transaction (idempotency)
  match getTransactionByExternalId st transactionId with
  | some existing =>
    let wallet := getWalletById st existing.wallet_id
    .ok ({ transaction := existing,
           balance := jsOrI (wallet.map (fun w => w.playable_balance)) existing.balance_after,
           currency := jsOrS (wallet.map (fun w => w.currency_code)) "USD",
           isDuplicate := true }, st)
  | none =>
    -- Validate session
    match getSessionByToken st sessionToken with
    | none => .error ⟨"Invalid or expired session", "INVALID_SESSION", 401⟩
    | some session =>
      -- Validate amount
      if amount < 0 then
        .error ⟨"Amount cannot be negative", "INVALID_AMOUNT", 400⟩
      else
        -- Lock wallet row for update
        match getWalletById st session.wallet_id with
        | none => .error ⟨"Wallet not found", "WALLET_ERROR", 500⟩
        | some wallet =>
          let newBalance := wallet.playable_balance + amount
          let responseCache : ResponseCache :=
            { success := some true, transactionId := some transactionId,
              balance := some newBalance, currency := some wallet.currency_code }
          let txn : CasinoTransaction :=
            { id := st.nextId, wallet_id := wallet.id,
              session_id := some session.id,
              transaction_type := .credit, amount := amount,
              external_transaction_id := transactionId,
              related_external_transaction_id := relatedTransactionId,
              balance_after := newBalance,
              response_cache := responseCache, is_rollback := false }
          .ok ({ transaction := txn, balance := newBalance,
                 currency := wallet.currency_code, isDuplicate := false },
               { st with
                   wallets := updateWalletBalance st.wallets wallet.id newBalance,
                   ledger := st.ledger ++ [txn],
                   nextId := st.nextId + 1 })

/-- `SELECT * FROM casino_transactions WHERE related_external_transaction_id = $1
AND transaction_type = 'rollback'` — the rows referencing a given original. -/
def rollbacksReferencing (st : State) (originalId : String) :
    List CasinoTransaction :=
  st.ledger.filter (fun t =>
    t.related_external_transaction_id == some originalId
      && t.transaction_type == TransactionType.rollback)

/-- `CasinoService.processRollback`: self-idempotency replay, tombstone
for an unknown original, refusal of entries already flagged
`is_rollback`, amount-0 marker when another rollback already references
the original, rejection of credits, and the nominal reversal path. -/
def processRollback (st : State) (sessionToken transactionId originalTransactionId : String)
    (reason : Option String) : Except CasinoErr (RollbackResult × State) :=
  -- Check if rollback was already processed (idempotency with tombstone)
  match getTransactionByExternalId st transactionId with
  | some existingRollback =>
    let wallet := getWalletById st existingRollback.wallet_id
    .ok ({ transaction := some existingRollback,
           balance := jsOrI (wallet.map (fun w => w.playable_balance))
             existingRollback.balance_after,
           currency := jsOrS (wallet.map (fun w => w.currency_code)) "USD",
           rolledBack := true,
           message := "Rollback already processed (idempotent response)" }, st)
  | none =>
    -- Find original transaction
    match getTransactionByExternalId st originalTransactionId with
    | none =>
      -- Tombstone rule: original not found, record rollback marker
      match getSessionByToken st sessionToken with
      | none => .error ⟨"Invalid or expired session", "INVALID_SESSION", 401⟩
      | some session =>
        match getWalletById st session.wallet_id with
        | none => .error ⟨"Wallet not found", "WALLET_ERROR", 500⟩
        | some wallet =>
          let txn : CasinoTransaction :=
            { id := st.nextId, wallet_id := wallet.id,
              session_id := some session.id,
              transaction_type := .rollback, amount := 0,
              external_transaction_id := transactionId,
              related_external_transaction_id := some originalTransactionId,
              balance_after := wallet.playable_balance,
              response_cache :=
                { tombstone := some true,
                  reason := some "Original transaction not found" },
              is_rollback := true }
          .ok ({ transaction := none, balance := wallet.playable_balance,
                 currency := wallet.currency_code, rolledBack := true,
                 message := "Tombstone recorded - original transaction not found, no balance change" },
               { st with ledger := st.ledger ++ [txn], nextId := st.nextId + 1 })
    | some originalTxn =>
      -- Check if original was already rolled back
      if originalTxn.is_rollback then
        let wallet := getWalletById st originalTxn.wallet_id
        .ok ({ transaction := none,
               balance := jsOrI (wallet.map (fun w => w.playable_balance)) 0,
               currency := jsOrS (wallet.map (fun w => w.currency_code)) "USD",
               rolledBack := false,
               message := "Cannot rollback a rollback transaction" }, st)
      else
        -- Check if original was already rolled back by another rollback
        if 0 < (rollbacksReferencing st originalTransactionId).length then
          let wallet := getWalletById st originalTxn.wallet_id
          let txn : CasinoTransaction :=
            { id := st.nextId, wallet_id := originalTxn.wallet_id,
              session_id := originalTxn.session_id,
              transaction_type := .rollback, amount := 0,
              external_transaction_id := transactionId,
              related_external_transaction_id := some originalTransactionId,
              balance_after := jsOrI (wallet.map (fun w => w.playable_balance)) 0,
              response_cache := { alreadyRolledBack := some true },
              is_rollback := true }
          .ok ({ transaction := none,
                 balance := jsOrI (wallet.map (fun w => w.playable_balance)) 0,
                 currency := jsOrS (wallet.map (fun w => w.currency_code)) "USD",
                 rolledBack := true,
                 message := "Transaction was already rolled back" },
               { st with ledger := st.ledger ++ [txn], nextId := st.nextId + 1 })
        else
          -- Only bets (debits) can be rolled back, not payouts (credits)
          if originalTxn.transaction_type == TransactionType.credit then
            .error ⟨"Payouts/credits cannot be rolled back", "CANNOT_ROLLBACK_PAYOUT", 400⟩
          else
            -- Lock wallet row
            match getWalletById st originalTxn.wallet_id with
            | none => .error ⟨"Wallet not found", "WALLET_ERROR", 500⟩
            | some wallet =>
              -- Reverse the debit (add amount back)
              let newBalance := wallet.playable_balance + originalTxn.amount
              let responseCache : ResponseCache :=
                { success := some true, transactionId := some transactionId,
                  originalTransactionId := some originalTransactionId,
                  balance := some newBalance,
                  currency := some wallet.currency_code, reason := reason }
              let txn : CasinoTransaction :=
                { id := st.nextId, wallet_id := wallet.id,
                  session_id := originalTxn.session_id,
                  transaction_type := .rollback, amount := originalTxn.amount,
                  external_transaction_id := transactionId,
                  related_external_transaction_id := some originalTransactionId,
                  balance_after := newBalance,
                  response_cache := responseCache, is_rollback := true }
              .ok ({ transaction := some txn, balance := newBalance,
                     currency := wallet.currency_code, rolledBack := true,
                     message := "Transaction successfully rolled back" },
                   { st with
                       wallets := updateWalletBalance st.wallets wallet.id newBalance,
                       ledger := markRolledBack st.ledger originalTxn.id ++ [txn],
                       nextId := st.nextId + 1 })

/-- One Provider→Casino money-moving callback, for building traces. -/
inductive Op
  | debit (sessionToken transactionId roundId : String) (amount : Int)
  | credit (sessionToken transactionId roundId : String) (amount : Int)
      (relatedTransactionId : Option String)
  | rollback (sessionToken transactionId originalTransactionId : String)
      (reason : Option String)
deriving Repr, DecidableEq

/-- Apply one callback to the database state.  An error leaves the state
unchanged (the database transaction is rolled back). -/
def applyOp (st : State) (op : Op) : State :=
  match op with
  | .debit tok tid rid a =>
    match processDebit st tok tid rid a with
    | .ok (_, st') => st'
    | .error _ => st
  | .credit tok tid rid a rel =>
    match processCredit st tok tid rid a rel with
    | .ok (_, st') => st'
    | .error _ => st
  | .rollback tok tid oid r =>
    match processRollback st tok tid oid r with
    | .ok (_, st') => st'
    | .error _ => st

/-- Run a sequence of callbacks from a starting state. -/
def runOps (st : State) (ops : List Op) : State :=
  ops.foldl applyOp st

/-- The signed balance effect of a ledger entry: a debit subtracts its
amount, a credit adds it, and a rollback entry adds it (tombstones and
already-rolled-back markers carry amount 0, bet reversals carry the
original debit amount). -/
def signedAmount (t : CasinoTransaction) : Int :=
  match t.transaction_type with
  | .debit => -t.amount
  | .credit => t.amount
  | .rollback => t.amount

/-- The ledger entries of one wallet, in insertion order. -/
def walletLedger (st : State) (walletId : String) : List CasinoTransaction :=
  st.ledger.filter (fun t => t.wallet_id == walletId)

/-- Adjacent-entry balance law for one wallet's ledger slice. -/
def BalanceStep (a b : CasinoTransaction) : Prop :=
  b.balance_after = a.balance_after + signedAmount b

/-- The state invariants the ledger engine maintains: non-negative
balances and amounts, global uniqueness of external transaction ids and
of internal row ids, credits never flagged `is_rollback`, referential
integrity of `wallet_id`, the per-wallet `balance_after` chain, and
agreement of each wallet's balance with its last ledger entry. -/
structure Inv (st : State) : Prop where
  wallets_nonneg : ∀ w ∈ st.wallets, 0 ≤ w.playable_balance
  amounts_nonneg : ∀ t ∈ st.ledger, 0 ≤ t.amount
  ext_nodup : (st.ledger.map (fun t => t.external_transaction_id)).Nodup
  ids_lt : ∀ t ∈ st.ledger, t.id < st.nextId
  ids_nodup : (st.ledger.map (fun t => t.id)).Nodup
  credits_clean : ∀ t ∈ st.ledger,
    t.transaction_type = TransactionType.credit → t.is_rollback = false
  wallet_exists : ∀ t ∈ st.ledger,
    t.wallet_id ∈ st.wallets.map (fun w => w.id)
  wallet_ids_nodup : (st.wallets.map (fun w => w.id)).Nodup
  chain : ∀ wid, List.Chain' BalanceStep (walletLedger st wid)
  last_balance : ∀ w ∈ st.wallets, ∀ t,
    (walletLedger st w.id).getLast? = some t →
      t.balance_after = w.playable_balance

/-- A well-formed starting point: no ledger yet, non-negative balances,
distinct wallet rows. -/
abbrev InitOk (st : State) : Prop :=
  st.ledger = [] ∧ (∀ w ∈ st.wallets, 0 ≤ w.playable_balance) ∧
    (st.wallets.map (fun w => w.id)).Nodup

theorem Inv.of_initOk {st : State} (h : InitOk st) : Inv st := by
  obtain ⟨hl, hw, hn⟩ := h
  refine ⟨hw, ?_, ?_, ?_, ?_, ?_, ?_, hn, ?_, ?_⟩ <;>
    simp [hl, walletLedger]

@[simp] theorem jsOrI_some_zero (v : Int) : jsOrI (some v) 0 = v := by
  by_cases h : v = 0 <;> simp [jsOrI, h]

@[simp] theorem setBalance_id (wid : String) (b : Int) (w : CasinoWallet) :
    (setBalance wid b w).id = w.id := by
  by_cases h : w.id == wid <;> simp [setBalance, h]

@[simp] theorem setBalance_currency (wid : String) (b : Int) (w : CasinoWallet) :
    (setBalance wid b w).currency_code = w.currency_code := by
  by_cases h : w.id == wid <;> simp [setBalance, h]

@[simp] theorem markOne_id (oid : Nat) (t : CasinoTransaction) :
    (markOne oid t).id = t.id := by
  by_cases h : t.id == oid <;> simp [markOne, h]

@[simp] theorem markOne_wallet_id (oid : Nat) (t : CasinoTransaction) :
    (markOne oid t).wallet_id = t.wallet_id := by
  by_cases h : t.id == oid <;> simp [markOne, h]

@[simp] theorem markOne_amount (oid : Nat) (t : CasinoTransaction) :
    (markOne oid t).amount = t.amount := by
  by_cases h : t.id == oid <;> simp [markOne, h]

@[simp] theorem markOne_type (oid : Nat) (t : CasinoTransaction) :
    (markOne oid t).transaction_type = t.transaction_type := by
  by_cases h : t.id == oid <;> simp [markOne, h]

@[simp] theorem markOne_balance_after (oid : Nat) (t : CasinoTransaction) :
    (markOne oid t).balance_after = t.balance_after := by
  by_cases h : t.id == oid <;> simp [markOne, h]

@[simp] theorem markOne_ext (oid : Nat) (t : CasinoTransaction) :
    (markOne oid t).external_transaction_id = t.external_transaction_id := by
  by_cases h : t.id == oid <;> simp [markOne, h]

theorem signedAmount_markOne (oid : Nat) (t : CasinoTransaction) :
    signedAmount (markOne oid t) = signedAmount t := by
  simp [signedAmount]

/-- `getWalletById` returns a member whose `id` is the one looked up. -/
theorem getWalletById_spec {st : State} {wid : String} {w : CasinoWallet}
    (h : getWalletById st wid = some w) : w ∈ st.wallets ∧ w.id = wid := by
  refine ⟨List.mem_of_find?_eq_some h, ?_⟩
  have := List.find?_some h
  simpa using this

/-- A wallet id occurring among the rows is found by `getWalletById`. -/
theorem getWalletById_isSome {st : State} {wid : String}
    (h : wid ∈ st.wallets.map (fun w => w.id)) :
    ∃ w, getWalletById st wid = some w := by
  rcases hn : getWalletById st wid with _ | w
  · rw [getWalletById, List.find?_eq_none] at hn
    simp only [List.mem_map] at h
    obtain ⟨w, hw, hid⟩ := h
    exact absurd (by simpa using hid) (by simpa using hn w hw)
  · exact ⟨w, rfl⟩

/-- `getTransactionByExternalId` returns a member carrying that id. -/
theorem getTransactionByExternalId_spec {st : State} {eid : String}
    {t : CasinoTransaction} (h : getTransactionByExternalId st eid = some t) :
    t ∈ st.ledger ∧ t.external_transaction_id = eid := by
  refine ⟨List.mem_of_find?_eq_some h, ?_⟩
  have := List.find?_some h
  simpa using this

/-- A fresh external id appears on no ledger row. -/
theorem ext_fresh {st : State} {eid : String}
    (h : getTransactionByExternalId st eid = none) :
    ∀ t ∈ st.ledger, t.external_transaction_id ≠ eid := by
  rw [getTransactionByExternalId, List.find?_eq_none] at h
  intro t ht
  simpa using h t ht

/-- With duplicate-free internal ids, a row sharing the id of a ledger
member is that member. -/
theorem eq_of_id_eq {st : State} (hnd : (st.ledger.map (fun t => t.id)).Nodup)
    {t u : CasinoTransaction} (ht : t ∈ st.ledger) (hu : u ∈ st.ledger)
    (hid : t.id = u.id) : t = u := by
  have := List.inj_on_of_nodup_map hnd
  exact this ht hu hid

/-- With duplicate-free wallet ids, two rows sharing an id coincide. -/
theorem wallet_eq_of_id_eq {st : State}
    (hnd : (st.wallets.map (fun w => w.id)).Nodup)
    {v w : CasinoWallet} (hv : v ∈ st.wallets) (hw : w ∈ st.wallets)
    (hid : v.id = w.id) : v = w := by
  have := List.inj_on_of_nodup_map hnd
  exact this hv hw hid

theorem updateWalletBalance_map_id (ws : List CasinoWallet) (wid : String)
    (b : Int) :
    (updateWalletBalance ws wid b).map (fun w => w.id) =
      ws.map (fun w => w.id) := by
  simp [updateWalletBalance, List.map_map, Function.comp_def]

/-- The per-wallet slice of the mutated ledger: the mapped old slice,
plus the appended row when it belongs to the wallet. -/
theorem walletLedger_mutate (st : State)
    (g : CasinoTransaction → CasinoTransaction)
    (hg_w : ∀ t, (g t).wallet_id = t.wallet_id)
    (txn : CasinoTransaction) (ws : List CasinoWallet) (n : Nat) (wid : String) :
    walletLedger ⟨ws, st.sessions, st.ledger.map g ++ [txn], n⟩ wid =
      (walletLedger st wid).map g ++
        (if txn.wallet_id == wid then [txn] else []) := by
  simp only [walletLedger, List.filter_append, List.filter_map]
  congr 1
  · congr 1
    apply List.filter_congr
    intro t _
    simp [Function.comp_def, hg_w]
  · by_cases h : txn.wallet_id == wid <;> simp [h]

/-- Master preservation lemma: appending a fresh ledger row `txn`,
optionally rewriting old rows with a money-field-preserving `g`, and
setting `txn`'s wallet's balance to `txn.balance_after`, keeps `Inv`. -/
theorem Inv.mutate {st : State} (h : Inv st)
    (g : CasinoTransaction → CasinoTransaction)
    (hg_id : ∀ t, (g t).id = t.id)
    (hg_w : ∀ t, (g t).wallet_id = t.wallet_id)
    (hg_ty : ∀ t, (g t).transaction_type = t.transaction_type)
    (hg_a : ∀ t, (g t).amount = t.amount)
    (hg_b : ∀ t, (g t).balance_after = t.balance_after)
    (hg_e : ∀ t, (g t).external_transaction_id = t.external_transaction_id)
    (hg_cr : ∀ t ∈ st.ledger,
      t.transaction_type = TransactionType.credit → (g t).is_rollback = false)
    (txn : CasinoTransaction) (w : CasinoWallet)
    (hw : getWalletById st txn.wallet_id = some w)
    (hext : ∀ t ∈ st.ledger,
      t.external_transaction_id ≠ txn.external_transaction_id)
    (hid : txn.id = st.nextId)
    (hamt : 0 ≤ txn.amount)
    (hcr : txn.transaction_type = TransactionType.credit → txn.is_rollback = false)
    (hlink : txn.balance_after = w.playable_balance + signedAmount txn)
    (hnn : 0 ≤ txn.balance_after) :
    Inv ⟨updateWalletBalance st.wallets txn.wallet_id txn.balance_after,
         st.sessions, st.ledger.map g ++ [txn], st.nextId + 1⟩ := by
  obtain ⟨hwmem, hwid⟩ := getWalletById_spec hw
  have hsig : ∀ t, signedAmount (g t) = signedAmount t := by
    intro t; simp [signedAmount, hg_ty t, hg_a t]
  constructor
  -- wallets_nonneg
  · intro w' hw'
    simp only [updateWalletBalance, List.mem_map] at hw'
    obtain ⟨v, _, rfl⟩ := hw'
    by_cases hv : v.id == txn.wallet_id
    · simpa [setBalance, hv] using hnn
    · simp only [setBalance, hv, if_neg]
      exact h.wallets_nonneg v (by assumption)
  -- amounts_nonneg
  · intro t ht
    rcases List.mem_append.mp ht with ht | ht
    · obtain ⟨u, hu, rfl⟩ := List.mem_map.mp ht
      rw [hg_a]; exact h.amounts_nonneg u hu
    · simp only [List.mem_singleton] at ht
      exact ht ▸ hamt
  -- ext_nodup
  · have hmap : (st.ledger.map g).map (fun t => t.external_transaction_id) =
        st.ledger.map (fun t => t.external_transaction_id) := by
      simp [List.map_map, Function.comp_def, hg_e]
    rw [List.map_append, hmap]
    refine List.Nodup.append h.ext_nodup (List.nodup_singleton _) ?_
    intro x hx hx'
    simp only [List.map_cons, List.map_nil, List.mem_singleton] at hx'
    obtain ⟨u, hu, rfl⟩ := List.mem_map.mp hx
    exact hext u hu hx'
  -- ids_lt
  · intro t ht
    rcases List.mem_append.mp ht with ht | ht
    · obtain ⟨u, hu, rfl⟩ := List.mem_map.mp ht
      rw [hg_id]
      exact Nat.lt_succ_of_lt (h.ids_lt u hu)
    · simp only [List.mem_singleton] at ht
      subst ht
      rw [hid]
      exact Nat.lt_succ_self _
  -- ids_nodup
  · have hmap : (st.ledger.map g).map (fun t => t.id) =
        st.ledger.map (fun t => t.id) := by
      simp [List.map_map, Function.comp_def, hg_id]
    rw [List.map_append, hmap]
    refine List.Nodup.append h.ids_nodup (List.nodup_singleton _) ?_
    intro x hx hx'
    simp only [List.map_cons, List.map_nil, List.mem_singleton] at hx'
    obtain ⟨u, hu, rfl⟩ := List.mem_map.mp hx
    exact absurd (hx' ▸ hid ▸ h.ids_lt u hu) (Nat.lt_irrefl _)
  -- credits_clean
  · intro t ht hty
    rcases List.mem_append.mp ht with ht | ht
    · obtain ⟨u, hu, rfl⟩ := List.mem_map.mp ht
      exact hg_cr u hu (by rw [← hg_ty u]; exact hty)
    · simp only [List.mem_singleton] at ht
      subst ht
      exact hcr hty
  -- wallet_exists
  · intro t ht
    rw [updateWalletBalance_map_id]
    rcases List.mem_append.mp ht with ht | ht
    · obtain ⟨u, hu, rfl⟩ := List.mem_map.mp ht
      rw [hg_w]
      exact h.wallet_exists u hu
    · simp only [List.mem_singleton] at ht
      subst ht
      exact List.mem_map.mpr ⟨w, hwmem, hwid⟩
  -- wallet_ids_nodup
  · rw [updateWalletBalance_map_id]
    exact h.wallet_ids_nodup
  -- chain
  · intro wid
    rw [walletLedger_mutate st g hg_w]
    have hbase : List.Chain' BalanceStep ((walletLedger st wid).map g) := by
      rw [List.chain'_map]
      exact (h.chain wid).imp (fun a b hab => by
        simpa [BalanceStep, hg_b, hsig] using hab)
    by_cases hin : txn.wallet_id == wid
    · rw [hin, if_pos rfl, List.chain'_append]
      refine ⟨hbase, List.chain'_singleton _, ?_⟩
      intro x hx y hy
      simp only [List.head?_cons, Option.mem_def, Option.some_inj] at hy
      subst hy
      rw [List.getLast?_map, Option.mem_def] at hx
      rcases hlast : (walletLedger st wid).getLast? with _ | t
      · rw [hlast] at hx; simp at hx
      · rw [hlast] at hx
        simp only [Option.map_some', Option.some_inj] at hx
        subst hx
        have hwid' : txn.wallet_id = wid := by simpa using hin
        have := h.last_balance w hwmem t (by rw [hwid, hwid']; exact hlast)
        simp only [BalanceStep, hg_b]
        rw [this]
        exact hlink
    · rw [Bool.not_eq_true] at hin
      rw [hin]
      simpa using hbase
  -- last_balance
  · intro w' hw' t ht
    simp only [updateWalletBalance, List.mem_map] at hw'
    obtain ⟨v, hv, rfl⟩ := hw'
    rw [walletLedger_mutate st g hg_w] at ht
    by_cases hvid : v.id == txn.wallet_id
    · have hvid' : v.id = txn.wallet_id := by simpa using hvid
      simp only [setBalance_id, hvid', beq_self_eq_true, if_pos,
        List.getLast?_concat, Option.some_inj] at ht
      have hbal : (setBalance txn.wallet_id txn.balance_after v).playable_balance =
          txn.balance_after := by
        simp [setBalance, hvid]
      rw [hbal, ← ht]
    · have hvid' : ¬ v.id = txn.wallet_id := by simpa using hvid
      have hsb : setBalance txn.wallet_id txn.balance_after v = v := by
        simp [setBalance, hvid]
      rw [hsb] at ht ⊢
      have hne : (txn.wallet_id == v.id) = false := by
        simp only [beq_eq_false_iff_ne, ne_eq]
        exact fun hcontra => hvid' hcontra.symm
      rw [hne] at ht
      simp only [Bool.false_eq_true, if_false, List.append_nil,
        List.getLast?_map] at ht
      rcases hlast : (walletLedger st v.id).getLast? with _ | u
      · rw [hlast] at ht; simp at ht
      · rw [hlast] at ht
        simp only [Option.map_some', Option.some_inj] at ht
        subst ht
        rw [hg_b]
        exact h.last_balance v hv u hlast

/-- Writing a wallet's own current balance back leaves the rows as they
were. -/
theorem updateWalletBalance_self {st : State}
    (hnd : (st.wallets.map (fun w => w.id)).Nodup) {wid : String}
    {w : CasinoWallet} (hw : getWalletById st wid = some w) :
    updateWalletBalance st.wallets wid w.playable_balance = st.wallets := by
  obtain ⟨hmem, hid⟩ := getWalletById_spec hw
  unfold updateWalletBalance
  have hpt : ∀ v ∈ st.wallets, setBalance wid w.playable_balance v = v := by
    intro v hv
    by_cases hvid : v.id == wid
    · have hvid' : v.id = wid := by simpa using hvid
      have : v = w := wallet_eq_of_id_eq hnd hv hmem (by rw [hvid', hid])
      subst this
      simp [setBalance, hvid]
    · simp [setBalance, hvid]
  rw [List.map_congr_left hpt]
  exact List.map_id' st.wallets

/-- A successful debit preserves the state invariants. -/
theorem Inv.processDebit_ok {st st' : State} {tok tid rid : String} {a : Int}
    {r : MoveResult} (h : Inv st)
    (hres : processDebit st tok tid rid a = .ok (r, st')) : Inv st' := by
  unfold processDebit at hres
  split at hres
  · obtain ⟨-, rfl⟩ : r = _ ∧ st = st' := by
      injection hres with h1; injection h1 with h2 h3; exact ⟨h2.symm, h3⟩
    exact h
  · rename_i hdup
    split at hres
    · exact absurd hres (by simp)
    · rename_i session hsess
      split at hres
      · exact absurd hres (by simp)
      · rename_i hpos
        split at hres
        · exact absurd hres (by simp)
        · rename_i wallet hwal
          split at hres
          · exact absurd hres (by simp)
          · rename_i hfunds
            obtain ⟨-, rfl⟩ : r = _ ∧ _ = st' := by
              injection hres with h1; injection h1 with h2 h3; exact ⟨h2.symm, h3⟩
            obtain ⟨hwmem, hwid⟩ := getWalletById_spec hwal
            have hmut := Inv.mutate h id (fun t => rfl) (fun t => rfl)
              (fun t => rfl) (fun t => rfl) (fun t => rfl) (fun t => rfl)
              h.credits_clean
              ⟨st.nextId, wallet.id, some session.id, .debit, a, tid, none,
                wallet.playable_balance - a,
                ⟨some true, some tid, none, some (wallet.playable_balance - a),
                  some wallet.currency_code, none, none, none⟩, false⟩
              wallet (by rw [hwid]; exact hwal)
              (ext_fresh hdup) rfl
              (by show (0:Int) ≤ a; omega)
              (by intro hc; simp at hc)
              (by show wallet.playable_balance - a =
                    wallet.playable_balance + -a; omega)
              (by show (0:Int) ≤ wallet.playable_balance - a; omega)
            simpa [List.map_id'] using hmut

/-- A successful credit preserves the state invariants. -/
theorem Inv.processCredit_ok {st st' : State} {tok tid rid : String} {a : Int}
    {rel : Option String} {r : MoveResult} (h : Inv st)
    (hres : processCredit st tok tid rid a rel = .ok (r, st')) : Inv st' := by
  unfold processCredit at hres
  split at hres
  · obtain ⟨-, rfl⟩ : r = _ ∧ st = st' := by
      injection hres with h1; injection h1 with h2 h3; exact ⟨h2.symm, h3⟩
    exact h
  · rename_i hdup
    split at hres
    · exact absurd hres (by simp)
    · rename_i session hsess
      split at hres
      · exact absurd hres (by simp)
      · rename_i hpos
        split at hres
        · exact absurd hres (by simp)
        · rename_i wallet hwal
          obtain ⟨-, rfl⟩ : r = _ ∧ _ = st' := by
            injection hres with h1; injection h1 with h2 h3; exact ⟨h2.symm, h3⟩
          obtain ⟨hwmem, hwid⟩ := getWalletById_spec hwal
          have hb := h.wallets_nonneg wallet hwmem
          have hmut := Inv.mutate h id (fun t => rfl) (fun t => rfl)
            (fun t => rfl) (fun t => rfl) (fun t => rfl) (fun t => rfl)
            h.credits_clean
            ⟨st.nextId, wallet.id, some session.id, .credit, a, tid, rel,
              wallet.playable_balance + a,
              ⟨some true, some tid, none, some (wallet.playable_balance + a),
                some wallet.currency_code, none, none, none⟩, false⟩
            wallet (by rw [hwid]; exact hwal)
            (ext_fresh hdup) rfl
            (by show (0:Int) ≤ a; omega)
            (fun _ => rfl)
            (by show wallet.playable_balance + a =
                  wallet.playable_balance + a; rfl)
            (by show (0:Int) ≤ wallet.playable_balance + a; omega)
          simpa [List.map_id'] using hmut

/-- A successful rollback preserves the state invariants, whichever of
the five non-error branches it takes. -/
theorem Inv.processRollback_ok {st st' : State} {tok tid oid : String}
    {reason : Option String} {r : RollbackResult} (h : Inv st)
    (hres : processRollback st tok tid oid reason = .ok (r, st')) : Inv st' := by
  unfold processRollback at hres
  split at hres
  · -- self-idempotent replay: state unchanged
    obtain ⟨-, rfl⟩ : r = _ ∧ st = st' := by
      injection hres with h1; injection h1 with h2 h3; exact ⟨h2.symm, h3⟩
    exact h
  · rename_i hdup
    split at hres
    · -- tombstone
      rename_i hnoorig
      split at hres
      · exact absurd hres (by simp)
      · rename_i session hsess
        split at hres
        · exact absurd hres (by simp)
        · rename_i wallet hwal
          obtain ⟨-, rfl⟩ : r = _ ∧ _ = st' := by
            injection hres with h1; injection h1 with h2 h3; exact ⟨h2.symm, h3⟩
          obtain ⟨hwmem, hwid⟩ := getWalletById_spec hwal
          have hw' : getWalletById st wallet.id = some wallet := by
            rw [hwid]; exact hwal
          have hb := h.wallets_nonneg wallet hwmem
          have hmut := Inv.mutate h id (fun t => rfl) (fun t => rfl)
            (fun t => rfl) (fun t => rfl) (fun t => rfl) (fun t => rfl)
            h.credits_clean
            ⟨st.nextId, wallet.id, some session.id, .rollback, 0, tid,
              some oid, wallet.playable_balance,
              ⟨none, none, none, none, none, some true, none,
                some "Original transaction not found"⟩, true⟩
            wallet hw' (ext_fresh hdup) rfl
            (by show (0:Int) ≤ 0; omega)
            (by intro hc; simp at hc)
            (by show wallet.playable_balance =
                  wallet.playable_balance + 0; omega)
            (by show (0:Int) ≤ wallet.playable_balance; omega)
          simpa [List.map_id', updateWalletBalance_self h.wallet_ids_nodup hw']
            using hmut
    · rename_i originalTxn horig
      obtain ⟨homem, hoext⟩ := getTransactionByExternalId_spec horig
      split at hres
      · -- original already flagged is_rollback: state unchanged
        obtain ⟨-, rfl⟩ : r = _ ∧ st = st' := by
          injection hres with h1; injection h1 with h2 h3; exact ⟨h2.symm, h3⟩
        exact h
      · rename_i hnotrb
        split at hres
        · -- already-rolled-back marker entry
          rename_i hreffed
          obtain ⟨w, hw⟩ := getWalletById_isSome (h.wallet_exists originalTxn homem)
          obtain ⟨hwmem, hwid⟩ := getWalletById_spec hw
          obtain ⟨-, rfl⟩ : r = _ ∧ _ = st' := by
            injection hres with h1; injection h1 with h2 h3; exact ⟨h2.symm, h3⟩
          have hb := h.wallets_nonneg w hwmem
          have hmut := Inv.mutate h id (fun t => rfl) (fun t => rfl)
            (fun t => rfl) (fun t => rfl) (fun t => rfl) (fun t => rfl)
            h.credits_clean
            ⟨st.nextId, originalTxn.wallet_id, originalTxn.session_id,
              .rollback, 0, tid, some oid,
              jsOrI ((getWalletById st originalTxn.wallet_id).map
                (fun w => w.playable_balance)) 0,
              ⟨none, none, none, none, none, none, some true, none⟩, true⟩
            w hw (ext_fresh hdup) rfl
            (by show (0:Int) ≤ 0; omega)
            (by intro hc; simp at hc)
            (by show jsOrI ((getWalletById st originalTxn.wallet_id).map
                  (fun w => w.playable_balance)) 0 =
                  w.playable_balance + 0
                rw [hw]
                simp [Option.map_some'])
            (by show (0:Int) ≤ jsOrI ((getWalletById st originalTxn.wallet_id).map
                  (fun w => w.playable_balance)) 0
                rw [hw]
                simpa [Option.map_some'] using hb)
          have hself : updateWalletBalance st.wallets originalTxn.wallet_id
              (jsOrI ((getWalletById st originalTxn.wallet_id).map
                (fun w => w.playable_balance)) 0) = st.wallets := by
            rw [hw]
            simpa [Option.map_some'] using
              updateWalletBalance_self h.wallet_ids_nodup hw
          simpa [List.map_id', hself] using hmut
        · rename_i hnoref
          split at hres
          · exact absurd hres (by simp)
          · rename_i hnotcredit
            split at hres
            · exact absurd hres (by simp)
            · rename_i wallet hwal
              obtain ⟨hwmem, hwid⟩ := getWalletById_spec hwal
              have hw' : getWalletById st wallet.id = some wallet := by
                rw [hwid]; exact hwal
              obtain ⟨-, rfl⟩ : r = _ ∧ _ = st' := by
                injection hres with h1; injection h1 with h2 h3
                exact ⟨h2.symm, h3⟩
              have hb := h.wallets_nonneg wallet hwmem
              have hamt := h.amounts_nonneg originalTxn homem
              have hcredit : originalTxn.transaction_type ≠ TransactionType.credit := by
                intro hc
                exact hnotcredit (by simp [hc])
              have hmut := Inv.mutate h (markOne originalTxn.id)
                (fun t => markOne_id _ t) (fun t => markOne_wallet_id _ t)
                (fun t => markOne_type _ t) (fun t => markOne_amount _ t)
                (fun t => markOne_balance_after _ t) (fun t => markOne_ext _ t)
                (by intro t ht hty
                    by_cases hidq : t.id == originalTxn.id
                    · have : t = originalTxn :=
                        eq_of_id_eq h.ids_nodup ht homem (by simpa using hidq)
                      exact absurd (this ▸ hty) hcredit
                    · rw [markOne, if_neg (by simpa using hidq)]
                      exact h.credits_clean t ht hty)
                ⟨st.nextId, wallet.id, originalTxn.session_id, .rollback,
                  originalTxn.amount, tid, some oid,
                  wallet.playable_balance + originalTxn.amount,
                  ⟨some true, some tid, some oid,
                    some (wallet.playable_balance + originalTxn.amount),
                    some wallet.currency_code, none, none, reason⟩, true⟩
                wallet hw' (ext_fresh hdup) rfl
                (by show (0:Int) ≤ originalTxn.amount; omega)
                (by intro hc; simp at hc)
                (by show wallet.playable_balance + originalTxn.amount =
                      wallet.playable_balance + originalTxn.amount
                    rfl)
                (by show (0:Int) ≤ wallet.playable_balance + originalTxn.amount
                    omega)
              simpa [markRolledBack] using hmut

/-- Every callback, successful or failed, preserves the invariants. -/
theorem inv_applyOp {st : State} (h : Inv st) (op : Op) : Inv (applyOp st op) := by
  cases op with
  | debit tok tid rid a =>
    rcases hres : processDebit st tok tid rid a with e | ⟨r, st'⟩
    · simpa [applyOp, hres] using h
    · simpa [applyOp, hres] using h.processDebit_ok hres
  | credit tok tid rid a rel =>
    rcases hres : processCredit st tok tid rid a rel with e | ⟨r, st'⟩
    · simpa [applyOp, hres] using h
    · simpa [applyOp, hres] using h.processCredit_ok hres
  | rollback tok tid oid reason =>
    rcases hres : processRollback st tok tid oid reason with e | ⟨r, st'⟩
    · simpa [applyOp, hres] using h
    · simpa [applyOp, hres] using h.processRollback_ok hres

/-- The invariants hold along any trace of callbacks. -/
theorem inv_runOps {st : State} (h : Inv st) (ops : List Op) :
    Inv (runOps st ops) := by
  induction ops generalizing st with
  | nil => exact h
  | cons op ops ih => exact ih (inv_applyOp h op)

/-- Looking a wallet up after a balance update returns the updated row. -/
theorem find?_updateWalletBalance (ws : List CasinoWallet) (wid : String)
    (b : Int) (x : String) :
    (updateWalletBalance ws wid b).find? (fun w => w.id == x) =
      (ws.find? (fun w => w.id == x)).map (setBalance wid b) := by
  induction ws with
  | nil => rfl
  | cons v ws ih =>
    by_cases hv : v.id == x
    · simp [updateWalletBalance, List.find?_cons, hv]
    · simp only [updateWalletBalance, List.map_cons, List.find?_cons,
        setBalance_id, hv] at ih ⊢
      simpa [updateWalletBalance] using ih

/-- Demonstration fixtures: one player wallet of 10000 minor units with
one active game session, and an empty ledger. -/
def demoWallet : CasinoWallet := ⟨"w1", "u1", "USD", 10000, 0⟩

def demoSession : CasinoGameSession := ⟨"s1", "tok", "u1", "w1", true⟩

def demoState : State := ⟨[demoWallet], [demoSession], [], 0⟩

/-- C3: starting from any well-formed state and running any sequence of
debit, credit, and rollback callbacks, every wallet's `playable_balance`
stays non-negative in every committed state. -/
theorem playable_balance_nonneg {st : State} (h : InitOk st) (ops : List Op) :
    ∀ w ∈ (runOps st ops).wallets, 0 ≤ w.playable_balance :=
  (inv_runOps (Inv.of_initOk h) ops).wallets_nonneg

theorem playable_balance_nonneg_witness :
    InitOk demoState ∧
      ∀ w ∈ (runOps demoState
        [Op.debit "tok" "t1" "r1" 1000,
         Op.credit "tok" "c1" "r1" 2500 (some "t1"),
         Op.rollback "tok" "rb1" "t1" none,
         Op.debit "tok" "t2" "r1" 11500]).wallets,
        0 ≤ w.playable_balance :=
  ⟨by decide, playable_balance_nonneg (by decide) _⟩

/-- C8: in any state reached from a well-formed start, for every pair of
consecutive ledger entries of the same wallet in insertion order, the
later entry's `balance_after` is the earlier one's plus the later's
signed amount (`-amount` for a debit, `+amount` for a credit, `+amount`
for a rollback entry — which is `0` for tombstones and
already-rolled-back markers and the original debit amount for a bet
reversal). -/
theorem balance_after_chain {st : State} (h : InitOk st) (ops : List Op)
    (wid : String) :
    List.Chain' BalanceStep (walletLedger (runOps st ops) wid) :=
  (inv_runOps (Inv.of_initOk h) ops).chain wid

theorem balance_after_chain_witness :
    InitOk demoState ∧
      List.Chain' BalanceStep (walletLedger (runOps demoState
        [Op.debit "tok" "t1" "r1" 1000,
         Op.credit "tok" "c1" "r1" 2500 (some "t1"),
         Op.rollback "tok" "rb0" "ghost" none,
         Op.rollback "tok" "rb1" "t1" none]) "w1") :=
  ⟨by decide, balance_after_chain (by decide) _ "w1"⟩

/-- C5: a debit with a fresh transaction id, a valid active session, and
an amount exceeding the wallet's balance fails with
`INSUFFICIENT_FUNDS` / HTTP 400 and leaves the state (wallet rows and
ledger) unchanged. -/
theorem debit_insufficient_funds (st : State) (tok tid rid : String)
    (a : Int) (s : CasinoGameSession) (w : CasinoWallet)
    (hfresh : getTransactionByExternalId st tid = none)
    (hsess : getSessionByToken st tok = some s)
    (hwal : getWalletById st s.wallet_id = some w)
    (hnn : 0 ≤ w.playable_balance)
    (hlt : w.playable_balance < a) :
    processDebit st tok tid rid a =
      .error ⟨"Insufficient funds", "INSUFFICIENT_FUNDS", 400⟩ ∧
    applyOp st (.debit tok tid rid a) = st := by
  have hpos : ¬ a ≤ 0 := by omega
  have h1 : processDebit st tok tid rid a =
      .error ⟨"Insufficient funds", "INSUFFICIENT_FUNDS", 400⟩ := by
    simp [processDebit, hfresh, hsess, hpos, hwal, hlt]
  exact ⟨h1, by simp [applyOp, h1]⟩

theorem debit_insufficient_funds_witness :
    getTransactionByExternalId demoState "t9" = none ∧
    getSessionByToken demoState "tok" = some demoSession ∧
    getWalletById demoState demoSession.wallet_id = some demoWallet ∧
    demoWallet.playable_balance < 20000 ∧
    (processDebit demoState "tok" "t9" "r1" 20000 =
        .error ⟨"Insufficient funds", "INSUFFICIENT_FUNDS", 400⟩ ∧
      applyOp demoState (.debit "tok" "t9" "r1" 20000) = demoState) :=
  ⟨by decide, by decide, by decide, by decide,
    debit_insufficient_funds demoState "tok" "t9" "r1" 20000 demoSession
      demoWallet (by decide) (by decide) (by decide) (by decide) (by decide)⟩

/-- C6: a rollback with a fresh own id whose original is unknown, under
a valid active session, leaves the wallet rows unchanged and appends one
rollback entry with amount 0, `is_rollback = true`, `balance_after`
equal to the current wallet balance and `response_cache.tombstone =
true`, returning `rolledBack = true`. -/
theorem rollback_tombstone (st : State) (tok tid oid : String)
    (reason : Option String) (s : CasinoGameSession) (w : CasinoWallet)
    (hfresh : getTransactionByExternalId st tid = none)
    (hnoorig : getTransactionByExternalId st oid = none)
    (hsess : getSessionByToken st tok = some s)
    (hwal : getWalletById st s.wallet_id = some w) :
    processRollback st tok tid oid reason =
      .ok ({ transaction := none, balance := w.playable_balance,
             currency := w.currency_code, rolledBack := true,
             message := "Tombstone recorded - original transaction not found, no balance change" },
           { st with
               ledger := st.ledger ++
                 [⟨st.nextId, w.id, some s.id, .rollback, 0, tid, some oid,
                   w.playable_balance,
                   ⟨none, none, none, none, none, some true, none,
                     some "Original transaction not found"⟩, true⟩],
               nextId := st.nextId + 1 }) := by
  simp [processRollback, hfresh, hnoorig, hsess, hwal]

theorem rollback_tombstone_witness :
    getTransactionByExternalId demoState "r9" = none ∧
    getTransactionByExternalId demoState "ghost" = none ∧
    getSessionByToken demoState "tok" = some demoSession ∧
    processRollback demoState "tok" "r9" "ghost" none =
      .ok ({ transaction := none, balance := demoWallet.playable_balance,
             currency := demoWallet.currency_code, rolledBack := true,
             message := "Tombstone recorded - original transaction not found, no balance change" },
           { demoState with
               ledger := demoState.ledger ++
                 [⟨demoState.nextId, demoWallet.id, some demoSession.id,
                   .rollback, 0, "r9", some "ghost",
                   demoWallet.playable_balance,
                   ⟨none, none, none, none, none, some true, none,
                     some "Original transaction not found"⟩, true⟩],
               nextId := demoState.nextId + 1 }) :=
  ⟨by decide, by decide, by decide,
    rollback_tombstone demoState "tok" "r9" "ghost" none demoSession
      demoWallet (by decide) (by decide) (by decide) (by decide)⟩

/-- C7: a rollback with a fresh own id whose original is a credit not
referenced by any rollback entry fails with `CANNOT_ROLLBACK_PAYOUT` /
HTTP 400, creating no ledger entry and changing no balance.  (`Inv`
supplies `is_rollback = false` for credit entries, which holds in every
reachable state.) -/
theorem rollback_credit_rejected (st : State) (tok tid oid : String)
    (reason : Option String) (e : CasinoTransaction) (h : Inv st)
    (hfresh : getTransactionByExternalId st tid = none)
    (horig : getTransactionByExternalId st oid = some e)
    (hty : e.transaction_type = TransactionType.credit)
    (hnoref : rollbacksReferencing st oid = []) :
    processRollback st tok tid oid reason =
      .error ⟨"Payouts/credits cannot be rolled back",
        "CANNOT_ROLLBACK_PAYOUT", 400⟩ ∧
    applyOp st (.rollback tok tid oid reason) = st := by
  have hmem := (getTransactionByExternalId_spec horig).1
  have hrb : e.is_rollback = false := h.credits_clean e hmem hty
  have h1 : processRollback st tok tid oid reason =
      .error ⟨"Payouts/credits cannot be rolled back",
        "CANNOT_ROLLBACK_PAYOUT", 400⟩ := by
    simp [processRollback, hfresh, horig, hrb, hnoref, hty]
  exact ⟨h1, by simp [applyOp, h1]⟩

theorem rollback_credit_rejected_witness :
    getTransactionByExternalId (runOps demoState
        [Op.debit "tok" "t1" "r1" 1000,
         Op.credit "tok" "t2" "r1" 2500 (some "t1")]) "rb1" = none ∧
    (∃ e, getTransactionByExternalId (runOps demoState
        [Op.debit "tok" "t1" "r1" 1000,
         Op.credit "tok" "t2" "r1" 2500 (some "t1")]) "t2" = some e ∧
      e.transaction_type = TransactionType.credit) ∧
    processRollback (runOps demoState
        [Op.debit "tok" "t1" "r1" 1000,
         Op.credit "tok" "t2" "r1" 2500 (some "t1")]) "tok" "rb1" "t2" none =
      .error ⟨"Payouts/credits cannot be rolled back",
        "CANNOT_ROLLBACK_PAYOUT", 400⟩ ∧
    applyOp (runOps demoState
        [Op.debit "tok" "t1" "r1" 1000,
         Op.credit "tok" "t2" "r1" 2500 (some "t1")])
      (.rollback "tok" "rb1" "t2" none) =
      runOps demoState
        [Op.debit "tok" "t1" "r1" 1000,
         Op.credit "tok" "t2" "r1" 2500 (some "t1")] := by
  refine ⟨by decide, ⟨⟨1, "w1", some "s1", .credit, 2500, "t2", some "t1",
    11500, ⟨some true, some "t2", none, some 11500, some "USD", none, none,
      none⟩, false⟩, by decide, by decide⟩, ?_⟩
  exact rollback_credit_rejected _ "tok" "rb1" "t2" none
    ⟨1, "w1", some "s1", .credit, 2500, "t2", some "t1", 11500,
      ⟨some true, some "t2", none, some 11500, some "USD", none, none, none⟩,
      false⟩
    (inv_runOps (Inv.of_initOk (by decide)) _)
    (by decide) (by decide) (by decide) (by decide)

/-- C4: rolling back a not-yet-reversed successful debit of amount `A`
adds exactly `A` back to the wallet (restoring its pre-debit value),
flags the original debit entry `is_rollback = true`, and appends a
rollback entry with `amount = A` and
`related_external_transaction_id` = the original's id.  "Not yet
reversed" is `is_rollback = false` on the original together with no
rollback entry referencing it. -/
theorem rollback_reverses_debit (st : State) (tok tid oid : String)
    (reason : Option String) (e : CasinoTransaction) (w : CasinoWallet)
    (h : Inv st)
    (hfresh : getTransactionByExternalId st tid = none)
    (horig : getTransactionByExternalId st oid = some e)
    (hty : e.transaction_type = TransactionType.debit)
    (hnotrb : e.is_rollback = false)
    (hnoref : rollbacksReferencing st oid = [])
    (hwal : getWalletById st e.wallet_id = some w) :
    ∃ res st', processRollback st tok tid oid reason = .ok (res, st') ∧
      res.rolledBack = true ∧
      res.balance = w.playable_balance + e.amount ∧
      getWalletById st' e.wallet_id =
        some { w with playable_balance := w.playable_balance + e.amount } ∧
      (∀ t ∈ st'.ledger, t.external_transaction_id = oid →
        t.is_rollback = true) ∧
      (∃ t ∈ st'.ledger, t.external_transaction_id = tid ∧
        t.transaction_type = TransactionType.rollback ∧
        t.amount = e.amount ∧
        t.related_external_transaction_id = some oid ∧
        t.balance_after = w.playable_balance + e.amount) := by
  obtain ⟨homem, hoext⟩ := getTransactionByExternalId_spec horig
  obtain ⟨hwmem, hwid⟩ := getWalletById_spec hwal
  have hnotcredit : (e.transaction_type == TransactionType.credit) = false := by
    simp [hty]
  refine ⟨⟨some ⟨st.nextId, w.id, e.session_id, .rollback, e.amount, tid,
      some oid, w.playable_balance + e.amount,
      ⟨some true, some tid, some oid, some (w.playable_balance + e.amount),
        some w.currency_code, none, none, reason⟩, true⟩,
      w.playable_balance + e.amount, w.currency_code, true,
      "Transaction successfully rolled back"⟩,
    ⟨updateWalletBalance st.wallets w.id (w.playable_balance + e.amount),
      st.sessions,
      markRolledBack st.ledger e.id ++
        [⟨st.nextId, w.id, e.session_id, .rollback, e.amount, tid, some oid,
          w.playable_balance + e.amount,
          ⟨some true, some tid, some oid,
            some (w.playable_balance + e.amount), some w.currency_code,
            none, none, reason⟩, true⟩],
      st.nextId + 1⟩, ?_, rfl, rfl, ?_, ?_, ?_⟩
  · simp [processRollback, hfresh, horig, hnotrb, hnoref, hnotcredit, hwal]
  · show (updateWalletBalance st.wallets w.id
        (w.playable_balance + e.amount)).find? (fun v => v.id == e.wallet_id) =
      _
    rw [find?_updateWalletBalance]
    rw [show st.wallets.find? (fun v => v.id == e.wallet_id) = some w from hwal]
    simp [setBalance]
  · intro t ht hext'
    rcases List.mem_append.mp ht with ht | ht
    · obtain ⟨u, hu, rfl⟩ := List.mem_map.mp ht
      have huext : u.external_transaction_id = oid := by
        rw [← markOne_ext e.id u]; exact hext'
      have : u = e := List.inj_on_of_nodup_map h.ext_nodup hu homem
        (by rw [huext, hoext])
      subst this
      simp [markOne]
    · simp only [List.mem_singleton] at ht
      subst ht
      rfl
  · refine ⟨⟨st.nextId, w.id, e.session_id, .rollback, e.amount, tid,
      some oid, w.playable_balance + e.amount,
      ⟨some true, some tid, some oid, some (w.playable_balance + e.amount),
        some w.currency_code, none, none, reason⟩, true⟩,
      List.mem_append.mpr (Or.inr (List.mem_singleton.mpr rfl)),
      rfl, rfl, rfl, rfl, rfl⟩

theorem rollback_reverses_debit_witness :
    getTransactionByExternalId (runOps demoState
        [Op.debit "tok" "t1" "r1" 1000]) "rb1" = none ∧
    (runOps demoState [Op.debit "tok" "t1" "r1" 1000]).wallets =
      [⟨"w1", "u1", "USD", 9000, 0⟩] ∧
    (∃ res st', processRollback (runOps demoState
        [Op.debit "tok" "t1" "r1" 1000]) "tok" "rb1" "t1" none =
        .ok (res, st') ∧
      res.rolledBack = true ∧
      res.balance = (9000 : Int) + 1000 ∧
      getWalletById st' "w1" = some ⟨"w1", "u1", "USD", (9000 : Int) + 1000, 0⟩ ∧
      (∀ t ∈ st'.ledger, t.external_transaction_id = "t1" →
        t.is_rollback = true) ∧
      (∃ t ∈ st'.ledger, t.external_transaction_id = "rb1" ∧
        t.transaction_type = TransactionType.rollback ∧
        t.amount = (1000 : Int) ∧
        t.related_external_transaction_id = some "t1" ∧
        t.balance_after = (9000 : Int) + 1000)) := by
  refine ⟨by decide, by decide, ?_⟩
  exact rollback_reverses_debit _ "tok" "rb1" "t1" none
    ⟨0, "w1", some "s1", .debit, 1000, "t1", none, 9000,
      ⟨some true, some "t1", none, some 9000, some "USD", none, none, none⟩,
      false⟩
    ⟨"w1", "u1", "USD", 9000, 0⟩
    (inv_runOps (Inv.of_initOk (by decide)) _)
    (by decide) (by decide) (by decide) (by decide) (by decide) (by decide)

/-- C9: of two sequential debits with the same transaction id under a
valid session, the first changes the wallet once (by its amount) and
appends the only ledger entry for that id; the second returns as a
duplicate with no wallet update and no insert (the state is returned
untouched). -/
theorem debit_idempotent_pair (st : State) (tok tid rid : String) (a : Int)
    (s : CasinoGameSession) (w : CasinoWallet)
    (hfresh : getTransactionByExternalId st tid = none)
    (hsess : getSessionByToken st tok = some s)
    (hwal : getWalletById st s.wallet_id = some w)
    (hpos : 0 < a) (hle : a ≤ w.playable_balance) :
    ∃ r1 st1, processDebit st tok tid rid a = .ok (r1, st1) ∧
      r1.isDuplicate = false ∧
      r1.balance = w.playable_balance - a ∧
      getWalletById st1 s.wallet_id =
        some { w with playable_balance := w.playable_balance - a } ∧
      st1.ledger.countP (fun t => t.external_transaction_id == tid) = 1 ∧
      (∃ r2, processDebit st1 tok tid rid a = .ok (r2, st1) ∧
        r2.isDuplicate = true) := by
  have hneg : ¬ a ≤ 0 := by omega
  have hnlt : ¬ w.playable_balance < a := by omega
  obtain ⟨hwmem, hwid⟩ := getWalletById_spec hwal
  refine ⟨⟨⟨st.nextId, w.id, some s.id, .debit, a, tid, none,
      w.playable_balance - a,
      ⟨some true, some tid, none, some (w.playable_balance - a),
        some w.currency_code, none, none, none⟩, false⟩,
      w.playable_balance - a, w.currency_code, false⟩,
    ⟨updateWalletBalance st.wallets w.id (w.playable_balance - a),
      st.sessions,
      st.ledger ++ [⟨st.nextId, w.id, some s.id, .debit, a, tid, none,
        w.playable_balance - a,
        ⟨some true, some tid, none, some (w.playable_balance - a),
          some w.currency_code, none, none, none⟩, false⟩],
      st.nextId + 1⟩, ?_, rfl, rfl, ?_, ?_, ?_⟩
  · simp [processDebit, hfresh, hsess, hneg, hwal, hnlt]
  · show (updateWalletBalance st.wallets w.id
        (w.playable_balance - a)).find? (fun v => v.id == s.wallet_id) = _
    rw [find?_updateWalletBalance]
    rw [show st.wallets.find? (fun v => v.id == s.wallet_id) = some w from hwal]
    simp [setBalance]
  · show (st.ledger ++ [_]).countP _ = 1
    rw [List.countP_append]
    have h0 : st.ledger.countP
        (fun t => t.external_transaction_id == tid) = 0 := by
      rw [List.countP_eq_zero]
      intro t ht
      simpa using ext_fresh hfresh t ht
    rw [h0]
    simp [List.countP_cons]
  · have hdup1 : getTransactionByExternalId
        ⟨updateWalletBalance st.wallets w.id (w.playable_balance - a),
          st.sessions,
          st.ledger ++ [⟨st.nextId, w.id, some s.id, .debit, a, tid, none,
            w.playable_balance - a,
            ⟨some true, some tid, none, some (w.playable_balance - a),
              some w.currency_code, none, none, none⟩, false⟩],
          st.nextId + 1⟩ tid =
        some ⟨st.nextId, w.id, some s.id, .debit, a, tid, none,
          w.playable_balance - a,
          ⟨some true, some tid, none, some (w.playable_balance - a),
            some w.currency_code, none, none, none⟩, false⟩ := by
      show (st.ledger ++ [_]).find? _ = _
      rw [List.find?_append,
        show st.ledger.find?
          (fun t => t.external_transaction_id == tid) = none from hfresh]
      simp
    have hwst : st.wallets.find? (fun v => v.id == w.id) = some w := by
      show getWalletById st w.id = some w
      rw [hwid]; exact hwal
    have hwal1 : getWalletById
        ⟨updateWalletBalance st.wallets w.id (w.playable_balance - a),
          st.sessions,
          st.ledger ++ [⟨st.nextId, w.id, some s.id, .debit, a, tid, none,
            w.playable_balance - a,
            ⟨some true, some tid, none, some (w.playable_balance - a),
              some w.currency_code, none, none, none⟩, false⟩],
          st.nextId + 1⟩ w.id =
        some { w with playable_balance := w.playable_balance - a } := by
      show (updateWalletBalance st.wallets w.id
        (w.playable_balance - a)).find? (fun v => v.id == w.id) = _
      rw [find?_updateWalletBalance, hwst]
      simp [setBalance]
    refine ⟨⟨⟨st.nextId, w.id, some s.id, .debit, a, tid, none,
        w.playable_balance - a,
        ⟨some true, some tid, none, some (w.playable_balance - a),
          some w.currency_code, none, none, none⟩, false⟩,
      w.playable_balance - a, jsOrS (some w.currency_code) "USD", true⟩,
      ?_, rfl⟩
    simp [processDebit, hdup1, hwal1, jsOrI]

theorem debit_idempotent_pair_witness :
    getTransactionByExternalId demoState "tid" = none ∧
    getSessionByToken demoState "tok" = some demoSession ∧
    (∃ r1 st1, processDebit demoState "tok" "tid" "r1" 500 = .ok (r1, st1) ∧
      r1.isDuplicate = false ∧
      r1.balance = demoWallet.playable_balance - 500 ∧
      getWalletById st1 demoSession.wallet_id =
        some { demoWallet with
                 playable_balance := demoWallet.playable_balance - 500 } ∧
      st1.ledger.countP (fun t => t.external_transaction_id == "tid") = 1 ∧
      (∃ r2, processDebit st1 "tok" "tid" "r1" 500 = .ok (r2, st1) ∧
        r2.isDuplicate = true)) :=
  ⟨by decide, by decide,
    debit_idempotent_pair demoState "tok" "tid" "r1" 500 demoSession
      demoWallet (by decide) (by decide) (by decide) (by decide) (by decide)⟩

/-- State after debiting 500 twice (ids `t1` then `t2`): wallet at 9000,
while `t1`'s cached response holds balance 9500. -/
def c1State : State :=
  runOps demoState [.debit "tok" "t1" "r1" 500, .debit "tok" "t2" "r1" 500]

/-- The ledger entry written for the first debit `t1`. -/
def c1Entry : CasinoTransaction :=
  ⟨0, "w1", some "s1", .debit, 500, "t1", none, 9500,
    ⟨some true, some "t1", none, some 9500, some "USD", none, none, none⟩,
    false⟩

/-- C1 counterexample: replaying debit `t1` after a second debit moved
the wallet to 9000 returns balance 9000 — the wallet's *current*
balance — although the response cached on `t1`'s entry holds 9500.  The
duplicate path therefore does not return the stored `response_cache`
regardless of the wallet's current balance. -/
theorem duplicate_debit_ignores_cache_counterexample :
    getTransactionByExternalId c1State "t1" = some c1Entry ∧
    c1Entry.response_cache.balance = some 9500 ∧
    processDebit c1State "tok" "t1" "r1" 500 =
      .ok ({ transaction := c1Entry, balance := 9000, currency := "USD",
             isDuplicate := true }, c1State) ∧
    (9000 : Int) ≠ 9500 := by decide

/-- C1 (amended): a debit or credit whose external transaction id
already has a ledger entry performs no state change and returns the
stored entry with `isDuplicate = true`, but its `balance` and `currency`
fields come from the wallet's current row (when the wallet exists with
non-zero balance and non-empty currency), not from the entry's
`response_cache`. -/
theorem duplicate_move_replays_current_balance (st : State)
    (tok tid rid : String) (a : Int) (rel : Option String)
    (e : CasinoTransaction) (w : CasinoWallet)
    (hdup : getTransactionByExternalId st tid = some e)
    (hwal : getWalletById st e.wallet_id = some w)
    (hb : w.playable_balance ≠ 0)
    (hc : w.currency_code ≠ "") :
    processDebit st tok tid rid a =
      .ok ({ transaction := e, balance := w.playable_balance,
             currency := w.currency_code, isDuplicate := true }, st) ∧
    processCredit st tok tid rid a rel =
      .ok ({ transaction := e, balance := w.playable_balance,
             currency := w.currency_code, isDuplicate := true }, st) := by
  constructor
  · simp [processDebit, hdup, hwal, jsOrI, jsOrS, hb, hc]
  · simp [processCredit, hdup, hwal, jsOrI, jsOrS, hb, hc]

theorem duplicate_move_replays_current_balance_witness :
    getTransactionByExternalId c1State "t1" = some c1Entry ∧
    getWalletById c1State c1Entry.wallet_id =
      some ⟨"w1", "u1", "USD", 9000, 0⟩ ∧
    (processDebit c1State "tok" "t1" "r1" 500 =
        .ok ({ transaction := c1Entry, balance := (9000 : Int),
               currency := "USD", isDuplicate := true }, c1State) ∧
      processCredit c1State "tok" "t1" "r1" 500 none =
        .ok ({ transaction := c1Entry, balance := (9000 : Int),
               currency := "USD", isDuplicate := true }, c1State)) :=
  ⟨by decide, by decide,
    duplicate_move_replays_current_balance c1State "tok" "t1" "r1" 500 none
      c1Entry ⟨"w1", "u1", "USD", 9000, 0⟩ (by decide) (by decide)
      (by decide) (by decide)⟩

/-- State after debit `t1` of 1000 and its successful rollback `rb1`:
the original debit entry now carries `is_rollback = true` and a rollback
entry references it; the wallet is back at 10000. -/
def c2State : State :=
  runOps demoState [.debit "tok" "t1" "r1" 1000, .rollback "tok" "rb1" "t1" none]

/-- The `t1` debit entry as it stands after its reversal. -/
def c2Entry : CasinoTransaction :=
  ⟨0, "w1", some "s1", .debit, 1000, "t1", none, 9000,
    ⟨some true, some "t1", none, some 9000, some "USD", none, none, none⟩,
    true⟩

/-- C2 counterexample: `t1` is a debit that has already been reversed
(flagged `is_rollback = true`, referenced by rollback `rb1`), yet a
second rollback `r2` of `t1` returns `rolledBack = false` with message
"Cannot rollback a rollback transaction" and an unchanged state — no
amount-0 `alreadyRolledBack` marker entry is inserted and no
`rolledBack = true` is reported, contrary to the claim. -/
theorem second_rollback_of_reversed_debit_counterexample :
    getTransactionByExternalId c2State "t1" = some c2Entry ∧
    c2Entry.transaction_type = TransactionType.debit ∧
    c2Entry.is_rollback = true ∧
    (rollbacksReferencing c2State "t1").length = 1 ∧
    getTransactionByExternalId c2State "r2" = none ∧
    processRollback c2State "tok" "r2" "t1" none =
      .ok ({ transaction := none, balance := 10000, currency := "USD",
             rolledBack := false,
             message := "Cannot rollback a rollback transaction" },
           c2State) ∧
    c2State.ledger.length = 2 := by decide

/-- C2 (amended): a second rollback (fresh own id) of a debit already
reversed — whose entry therefore carries `is_rollback = true` — inserts
nothing and changes no balance, and returns `rolledBack = false` with
message "Cannot rollback a rollback transaction": the `is_rollback` flag
set on the reversed original routes the request into the
cannot-rollback-a-rollback branch before the already-rolled-back marker
branch is reached. -/
theorem second_rollback_of_reversed_debit (st : State) (tok tid oid : String)
    (reason : Option String) (e : CasinoTransaction) (w : CasinoWallet)
    (hfresh : getTransactionByExternalId st tid = none)
    (horig : getTransactionByExternalId st oid = some e)
    (hrb : e.is_rollback = true)
    (hwal : getWalletById st e.wallet_id = some w)
    (hc : w.currency_code ≠ "") :
    processRollback st tok tid oid reason =
      .ok ({ transaction := none, balance := w.playable_balance,
             currency := w.currency_code, rolledBack := false,
             message := "Cannot rollback a rollback transaction" }, st) := by
  simp [processRollback, hfresh, horig, hrb, hwal, jsOrS, hc]

theorem second_rollback_of_reversed_debit_witness :
    getTransactionByExternalId c2State "r2" = none ∧
    getTransactionByExternalId c2State "t1" = some c2Entry ∧
    c2Entry.is_rollback = true ∧
    processRollback c2State "tok" "r2" "t1" none =
      .ok ({ transaction := none, balance := (10000 : Int),
             currency := "USD", rolledBack := false,
             message := "Cannot rollback a rollback transaction" },
           c2State) :=
  ⟨by decide, by decide, by decide,
    second_rollback_of_reversed_debit c2State "tok" "r2" "t1" none c2Entry
      ⟨"w1", "u1", "USD", 10000, 0⟩ (by decide) (by decide) (by decide)
      (by decide) (by decide)⟩

/-- C10: a rollback whose own transaction id matches *any* existing
ledger entry — the entry's kind is never inspected — returns
`rolledBack = true` with the already-processed message and the matched
entry, creates no ledger entry and changes no balance. -/
theorem rollback_own_id_replay (st : State) (tok tid oid : String)
    (reason : Option String) (e : CasinoTransaction) (w : CasinoWallet)
    (hdup : getTransactionByExternalId st tid = some e)
    (hwal : getWalletById st e.wallet_id = some w)
    (hb : w.playable_balance ≠ 0)
    (hc : w.currency_code ≠ "") :
    processRollback st tok tid oid reason =
      .ok ({ transaction := some e, balance := w.playable_balance,
             currency := w.currency_code, rolledBack := true,
             message := "Rollback already processed (idempotent response)" },
           st) := by
  simp [processRollback, hdup, hwal, jsOrI, jsOrS, hb, hc]

theorem rollback_own_id_replay_witness :
    (∃ e, getTransactionByExternalId
        (runOps demoState [Op.credit "tok" "c1" "r1" 2500 none]) "c1" =
          some e ∧ e.transaction_type = TransactionType.credit) ∧
    processRollback (runOps demoState [Op.credit "tok" "c1" "r1" 2500 none])
        "tok" "c1" "zzz" none =
      .ok ({ transaction := some ⟨0, "w1", some "s1", .credit, 2500, "c1",
               none, 12500,
               ⟨some true, some "c1", none, some 12500, some "USD", none,
                 none, none⟩, false⟩,
             balance := (12500 : Int), currency := "USD", rolledBack := true,
             message := "Rollback already processed (idempotent response)" },
           runOps demoState [Op.credit "tok" "c1" "r1" 2500 none]) :=
  ⟨⟨⟨0, "w1", some "s1", .credit, 2500, "c1", none, 12500,
      ⟨some true, some "c1", none, some 12500, some "USD", none, none, none⟩,
      false⟩, by decide, by decide⟩,
    rollback_own_id_replay (runOps demoState
        [Op.credit "tok" "c1" "r1" 2500 none]) "tok" "c1" "zzz" none
      ⟨0, "w1", some "s1", .credit, 2500, "c1", none, 12500,
        ⟨some true, some "c1", none, some 12500, some "USD", none, none,
          none⟩, false⟩
      ⟨"w1", "u1", "USD", 12500, 0⟩ (by decide) (by decide) (by decide)
      (by decide)⟩

end Casino
